import Mathlib

/-!
Verification of the crew-rostering constraint-formulation layer.

Shallow embedding of the Python sources under src/crew_rostering:
  domain/crew.py, domain/duty.py, domain/preferences.py,
  preprocessing/eligibility.py, preprocessing/duty_conflicts.py,
  preprocessing/coverage_check.py, model/feasibility_model.py,
  model/rostering_model.py, solver/solve_instance.py,
  scripts/run_rostering_model.py.

Python dictionaries are embedded as insertion-ordered association lists
whose lookup keeps the most recent binding (Python assignment to an
existing key overwrites its value).  CP-SAT models are embedded as lists
of linear constraints over a symbolic variable type; a solver solution
is a valuation of the variables, and satisfaction of the constraint
list is decidable so that concrete instances can be checked by
evaluation.
-/

namespace CrewRostering

/-- Python dict embedded as an insertion-ordered association list. -/
abbrev PyDict (α β : Type) := List (α × β)

/-- Python dict lookup with default, as in d.get(k, dflt): the most
recent binding for the key wins, matching overwrite-on-assignment. -/
def dictGet {α β : Type} [BEq α] (m : PyDict α β) (k : α) (dflt : β) : β :=
  match m.reverse.find? (fun p => p.1 == k) with
  | some p => p.2
  | none => dflt

/-- CrewMember dataclass from domain/crew.py. -/
structure CrewMember where
  crew_id : String
  role : String
  base : String
  qualified_types : List String
  max_minutes : Int
deriving DecidableEq

/-- Duty dataclass from domain/duty.py; coverage is a role-to-count dict. -/
structure Duty where
  duty_id : String
  day : Int
  start_min : Int
  end_min : Int
  base : String
  aircraft_type : String
  coverage : PyDict String Int
deriving DecidableEq

/-- Python property Duty.duration_min. -/
def Duty.duration_min (d : Duty) : Int := d.end_min - d.start_min

/-- OffRequest dataclass from domain/preferences.py. -/
structure OffRequest where
  crew_id : String
  day : Int
  penalty : Int
deriving DecidableEq

/-- Scenario dataclass from preprocessing/loaders.py. -/
structure Scenario where
  horizon_days : Int
  min_rest_minutes : Int
  max_consecutive_work_days : Int
  min_rest_days_per_week : Int
  late_end_threshold_min : Int
  early_start_threshold_min : Int
  weights : PyDict String Int
deriving DecidableEq

/-- Python range(a, b) over integers. -/
def pyRange (a b : Int) : List Int :=
  (List.range (b - a).toNat).map (fun i => a + (i : Int))

/-- The dict comprehension for crew_by_id in both model builders: for a
duplicated crew_id the last crew member wins. -/
def crewById (crew : List CrewMember) (c_id : String) : Option CrewMember :=
  crew.reverse.find? (fun c => c.crew_id == c_id)

/-- The dict comprehension for duty_by_id in both model builders. -/
def dutyById (duties : List Duty) (d_id : String) : Option Duty :=
  duties.reverse.find? (fun d => d.duty_id == d_id)

/-- Eligibility test from preprocessing/eligibility.py: the single
boolean expression assigned to ok inside compute_eligibility. -/
def eligiblePair (c : CrewMember) (d : Duty) : Bool :=
  d.coverage.any (fun rr => rr.1 == c.role) &&
  c.base == d.base &&
  c.qualified_types.contains d.aircraft_type

/-- Embeds compute_eligibility from preprocessing/eligibility.py: the
nested loops over crew and duties filling the eligibility dict. -/
def compute_eligibility (crew : List CrewMember) (duties : List Duty) :
    PyDict (String × String) Bool :=
  crew.flatMap (fun c => duties.map (fun d =>
    ((c.crew_id, d.duty_id), eligiblePair c d)))

/-- The lookup eligible.get((c_id, d_id), False) used by the builders. -/
def eligGet (eligible : PyDict (String × String) Bool) (c_id d_id : String) : Bool :=
  dictGet eligible (c_id, d_id) false

/-- MINUTES_PER_DAY constant from preprocessing/duty_conflicts.py. -/
def MINUTES_PER_DAY : Int := 24 * 60

/-- Python helper _abs_start from preprocessing/duty_conflicts.py. -/
def abs_start (d : Duty) : Int := (d.day - 1) * MINUTES_PER_DAY + d.start_min

/-- Python helper _abs_end from preprocessing/duty_conflicts.py. -/
def abs_end (d : Duty) : Int := (d.day - 1) * MINUTES_PER_DAY + d.end_min

/-- Embeds duties_conflict from preprocessing/duty_conflicts.py. -/
def duties_conflict (d1 d2 : Duty) (min_rest_minutes : Int) : Bool :=
  let s1 := abs_start d1
  let e1 := abs_end d1
  let s2 := abs_start d2
  let e2 := abs_end d2
  if ¬ (e1 ≤ s2 ∨ e2 ≤ s1) then true
  else if e1 ≤ s2 ∧ e1 + min_rest_minutes > s2 then true
  else if e2 ≤ s1 ∧ e2 + min_rest_minutes > s1 then true
  else false

/-- Embeds compute_conflict_pairs from preprocessing/duty_conflicts.py:
the nested index loops with i strictly below j, emitting pairs in the
order the duties appear in the input list. -/
def compute_conflict_pairs (duties : List Duty) (min_rest_minutes : Int) :
    List (String × String) :=
  match duties with
  | [] => []
  | d :: rest =>
      (rest.filter (fun d2 => duties_conflict d d2 min_rest_minutes)).map
        (fun d2 => (d.duty_id, d2.duty_id)) ++
      compute_conflict_pairs rest min_rest_minutes

/-- CoverageIssue dataclass from preprocessing/coverage_check.py. -/
structure CoverageIssue where
  duty_id : String
  day : Int
  role : String
  required : Int
  eligible_count : Int
  eligible_crew_ids : List String
deriving DecidableEq

/-- Python sorted() on a list of strings (ascending lexicographic). -/
def pySortStr (l : List String) : List String :=
  List.insertionSort (fun a b => a ≤ b) l

/-- Sort key of check_coverage_feasibility: the tuple
(eligible_count - required, day, duty_id, role), compared
lexicographically as Python compares tuples. -/
def issueKey (i : CoverageIssue) : Lex (Int × Lex (Int × Lex (String × String))) :=
  toLex (i.eligible_count - i.required, toLex (i.day, toLex (i.duty_id, i.role)))

/-- Ordering used by the issues.sort call in check_coverage_feasibility. -/
def issueLE (a b : CoverageIssue) : Prop := issueKey a ≤ issueKey b

instance : DecidableRel issueLE := fun a b =>
  inferInstanceAs (Decidable (issueKey a ≤ issueKey b))

instance : IsTotal CoverageIssue issueLE :=
  ⟨fun a b => le_total (issueKey a) (issueKey b)⟩

instance : IsTrans CoverageIssue issueLE :=
  ⟨fun _ _ _ h1 h2 => le_trans h1 h2⟩

/-- Spelled-out form of the sort order of check_coverage_feasibility:
smaller gap eligible_count - required (that is, larger shortfall)
first, ties broken by day, then duty id, then role. -/
def issueBefore (a b : CoverageIssue) : Prop :=
  a.eligible_count - a.required < b.eligible_count - b.required ∨
  (a.eligible_count - a.required = b.eligible_count - b.required ∧
    (a.day < b.day ∨
      (a.day = b.day ∧
        (a.duty_id < b.duty_id ∨
          (a.duty_id = b.duty_id ∧ a.role ≤ b.role)))))

/-- The eligible_crew list comprehension inside check_coverage_feasibility:
ids of crew members whose role matches and whose (crew_id, duty_id) pair
is eligible. -/
def eligible_crew_for (crew : List CrewMember)
    (eligible : PyDict (String × String) Bool) (d : Duty) (role : String) :
    List String :=
  (crew.filter (fun c => c.role == role && eligGet eligible c.crew_id d.duty_id)).map
    (fun c => c.crew_id)

/-- Body of the inner loop of check_coverage_feasibility for one duty
and one (role, required) coverage entry: an issue when the eligible
count falls short of the required count. -/
def coverageIssueFor (crew : List CrewMember)
    (eligible : PyDict (String × String) Bool) (d : Duty) (rr : String × Int) :
    Option CoverageIssue :=
  let eligible_crew := eligible_crew_for crew eligible d rr.1
  let count : Int := eligible_crew.length
  if count < rr.2 then
    some ⟨d.duty_id, d.day, rr.1, rr.2, count, pySortStr eligible_crew⟩
  else none

/-- The issues list of check_coverage_feasibility before the final sort,
in loop order. -/
def coverageIssuesRaw (crew : List CrewMember) (duties : List Duty)
    (eligible : PyDict (String × String) Bool) : List CoverageIssue :=
  duties.flatMap (fun d => d.coverage.filterMap (coverageIssueFor crew eligible d))

/-- Embeds check_coverage_feasibility from preprocessing/coverage_check.py:
collect one issue per (duty, required-role) pair whose eligible count is
below the required count, then sort by the severity key. -/
def check_coverage_feasibility (crew : List CrewMember) (duties : List Duty)
    (eligible : PyDict (String × String) Bool) : List CoverageIssue :=
  List.insertionSort issueLE (coverageIssuesRaw crew duties eligible)

/-- Symbolic CP-SAT variables created by the model builders, named after
the Python dict keys and variable names in model/feasibility_model.py and
model/rostering_model.py. -/
inductive Var : Type
  | x (c_id d_id : String)
  | work (c_id : String) (day : Int)
  | total_minutes (c_id : String)
  | max_load
  | min_load
  | spread
  | worked_days
  | preference_cost
deriving DecidableEq

/-- Linear constraints and variable-domain declarations emitted by the
model builders.  linEq ts r and linLe ts r denote that the sum of
coeff * value over ts equals (respectively is at most) r; this uniform
linear reading also covers the Python degenerate cases where sum of an
empty var list is the int 0.  varDom records the NewIntVar/NewBoolVar
domain.  maxEq/minEq mirror AddMaxEquality/AddMinEquality. -/
inductive Cstr : Type
  | linEq (ts : List (Int × Var)) (rhs : Int)
  | linLe (ts : List (Int × Var)) (rhs : Int)
  | varDom (v : Var) (lb ub : Int)
  | maxEq (target : Var) (vs : List Var)
  | minEq (target : Var) (vs : List Var)
deriving DecidableEq

/-- Value of a linear expression under a valuation of the variables. -/
def evalTerms (σ : Var → Int) (ts : List (Int × Var)) : Int :=
  (ts.map (fun t => t.1 * σ t.2)).sum

/-- Decidable satisfaction of one constraint by a valuation.  maxEq and
minEq with an empty variable list leave the target unconstrained. -/
def Cstr.holdsB (σ : Var → Int) : Cstr → Bool
  | .linEq ts r => evalTerms σ ts == r
  | .linLe ts r => decide (evalTerms σ ts ≤ r)
  | .varDom v lb ub => decide (lb ≤ σ v ∧ σ v ≤ ub)
  | .maxEq t vs =>
      vs.all (fun v => decide (σ v ≤ σ t)) && (vs.isEmpty || vs.any (fun v => σ v == σ t))
  | .minEq t vs =>
      vs.all (fun v => decide (σ t ≤ σ v)) && (vs.isEmpty || vs.any (fun v => σ v == σ t))

/-- A valuation is a solution of a constraint list when it satisfies
every constraint. -/
def satisfies (σ : Var → Int) (cs : List Cstr) : Prop :=
  ∀ c ∈ cs, c.holdsB σ = true

instance (σ : Var → Int) (cs : List Cstr) : Decidable (satisfies σ cs) :=
  inferInstanceAs (Decidable (∀ c ∈ cs, c.holdsB σ = true))

/-- Presence of the assignment variable x[(c_id, d_id)]: both builders
create it exactly when the pair is eligible, looping over duty_ids, so a
lookup x.get((c_id, d_id)) succeeds iff d_id is one of the duty ids and
the pair is eligible (the builders only query c_id drawn from crew_ids). -/
def xExists (duties : List Duty) (eligible : PyDict (String × String) Bool)
    (c_id d_id : String) : Bool :=
  (duties.map (fun d => d.duty_id)).contains d_id && eligGet eligible c_id d_id

/-- Domain declarations for the NewBoolVar calls creating x, in the
creation order of both builders. -/
def xVarDoms (crew : List CrewMember) (duties : List Duty)
    (eligible : PyDict (String × String) Bool) : List Cstr :=
  (crew.map (fun c => c.crew_id)).flatMap (fun c_id =>
    (duties.map (fun d => d.duty_id)).filterMap (fun d_id =>
      if eligGet eligible c_id d_id then some (.varDom (.x c_id d_id) 0 1) else none))

/-- The vars_for_role list built in the coverage loop of both builders:
one variable per crew id whose (last-wins, as Python dicts) crew record
matches the role and whose assignment variable exists. -/
def vars_for_role (crew : List CrewMember) (duties : List Duty)
    (eligible : PyDict (String × String) Bool) (d_id role : String) : List Var :=
  (crew.map (fun c => c.crew_id)).filterMap (fun c_id =>
    match crewById crew c_id with
    | none => none
    | some c =>
        if c.role == role && xExists duties eligible c_id d_id then
          some (.x c_id d_id)
        else none)

/-- Coverage constraints of both builders: for each duty id and each
(role, required) entry of the duty's coverage dict, the sum of the
role's assignment variables equals the required count. -/
def coverageCstrs (crew : List CrewMember) (duties : List Duty)
    (eligible : PyDict (String × String) Bool) : List Cstr :=
  (duties.map (fun d => d.duty_id)).flatMap (fun d_id =>
    match dutyById duties d_id with
    | none => []
    | some d =>
        d.coverage.map (fun rr =>
          .linEq ((vars_for_role crew duties eligible d_id rr.1).map (fun v => (1, v))) rr.2))

/-- Conflict constraints of both builders: per crew id and conflicting
duty-id pair, when both assignment variables exist their sum is at
most 1. -/
def conflictCstrs (crew : List CrewMember) (duties : List Duty)
    (eligible : PyDict (String × String) Bool)
    (conflicts : List (String × String)) : List Cstr :=
  (crew.map (fun c => c.crew_id)).flatMap (fun c_id =>
    conflicts.filterMap (fun pr =>
      if xExists duties eligible c_id pr.1 && xExists duties eligible c_id pr.2 then
        some (.linLe [(1, .x c_id pr.1), (1, .x c_id pr.2)] 1)
      else none))

/-- Embeds build_feasibility_model from model/feasibility_model.py as the
list of constraints it adds, in the order the code adds them. -/
def build_feasibility_model (crew : List CrewMember) (duties : List Duty)
    (eligible : PyDict (String × String) Bool)
    (conflicts : List (String × String)) : List Cstr :=
  xVarDoms crew duties eligible ++
  coverageCstrs crew duties eligible ++
  conflictCstrs crew duties eligible conflicts

/-- Workload constraints of build_rostering_model: per crew id, the
total_minutes variable domain, its defining equality against the sum of
duration-weighted assignment variables, and the redundant cap. -/
def workloadCstrs (crew : List CrewMember) (duties : List Duty)
    (eligible : PyDict (String × String) Bool) : List Cstr :=
  (crew.map (fun c => c.crew_id)).flatMap (fun c_id =>
    match crewById crew c_id with
    | none => []
    | some c =>
        let terms := (duties.map (fun d => d.duty_id)).filterMap (fun d_id =>
          if xExists duties eligible c_id d_id then
            match dutyById duties d_id with
            | some d => some (-(d.duration_min), Var.x c_id d_id)
            | none => none
          else none)
        [.varDom (.total_minutes c_id) 0 c.max_minutes,
         .linEq ((1, .total_minutes c_id) :: terms) 0,
         .linLe [(1, .total_minutes c_id)] c.max_minutes])

/-- Python expression max(c.max_minutes for c in crew) if crew else 0. -/
def max_cap (crew : List CrewMember) : Int :=
  match crew with
  | [] => 0
  | c :: rest => rest.foldl (fun acc c2 => max acc c2.max_minutes) c.max_minutes

/-- Fairness section of build_rostering_model: max_load and min_load
domains and their AddMaxEquality/AddMinEquality links to the per-crew
total_minutes variables. -/
def fairnessCstrs (crew : List CrewMember) : List Cstr :=
  let cap := max_cap crew
  let totals := (crew.map (fun c => c.crew_id)).map Var.total_minutes
  [.varDom .max_load 0 cap,
   .varDom .min_load 0 cap,
   .maxEq .max_load totals,
   .minEq .min_load totals]

/-- The day_vars list of the work-indicator loop: assignment variables of
this crew id for the duties of the given day that exist in x (that is,
whose (crew, duty) pair is eligible), in duty-list order as collected by
the duties_by_day buckets. -/
def day_vars_for (duties : List Duty) (eligible : PyDict (String × String) Bool)
    (c_id : String) (day : Int) : List Var :=
  (duties.filter (fun d => d.day == day)).filterMap (fun d =>
    if eligGet eligible c_id d.duty_id then some (.x c_id d.duty_id) else none)

/-- Work-indicator constraints of build_rostering_model for one
(crew id, day) cell: the boolean domain of work[c, day]; then, when the
day has assignment variables, work is at least each of them and at most
their sum, and otherwise work is fixed to 0. -/
def workCstrsFor (duties : List Duty) (eligible : PyDict (String × String) Bool)
    (c_id : String) (day : Int) : List Cstr :=
  let w := Var.work c_id day
  let day_vars := day_vars_for duties eligible c_id day
  .varDom w 0 1 ::
  (if day_vars.isEmpty then [.linEq [(1, w)] 0]
   else day_vars.map (fun v => .linLe [(1, v), (-1, w)] 0) ++
     [.linLe ((1, w) :: day_vars.map (fun v => (-1, v))) 0])

/-- Work-indicator section of build_rostering_model, looping over crew
ids and the days 1..horizon_days. -/
def workCstrs (crew : List CrewMember) (duties : List Duty)
    (eligible : PyDict (String × String) Bool) (horizon_days : Int) : List Cstr :=
  (crew.map (fun c => c.crew_id)).flatMap (fun c_id =>
    (pyRange 1 (horizon_days + 1)).flatMap (fun day =>
      workCstrsFor duties eligible c_id day))

/-- Max-consecutive-work-days section of build_rostering_model: only
emitted when K is strictly below the horizon; every window of K + 1
consecutive work indicators sums to at most K. -/
def maxConsecCstrs (crew : List CrewMember) (horizon_days K : Int) : List Cstr :=
  if K < horizon_days then
    (crew.map (fun c => c.crew_id)).flatMap (fun c_id =>
      (pyRange 1 (horizon_days - K + 1)).map (fun start_day =>
        .linLe ((pyRange start_day (start_day + K + 1)).map
          (fun d => (1, Var.work c_id d))) K))
  else []

/-- Weekly-minimum-rest section of build_rostering_model: skipped when
R is not positive; the horizon is cut into 7-day blocks (the last may be
shorter) and the work indicators of each block sum to at most
days_in_week - R.  num_weeks uses Python floor division. -/
def weeklyRestCstrs (crew : List CrewMember) (horizon_days R : Int) : List Cstr :=
  if R > 0 then
    let num_weeks := (horizon_days + 7 - 1).fdiv 7
    (crew.map (fun c => c.crew_id)).flatMap (fun c_id =>
      (pyRange 0 num_weeks).map (fun w =>
        let start := w * 7 + 1
        let last_day := min ((w + 1) * 7) horizon_days
        let days_in_week := last_day - start + 1
        .linLe ((pyRange start (last_day + 1)).map
          (fun day => (1, Var.work c_id day))) (days_in_week - R)))
  else []

/-- The objective weights of build_rostering_model, with its defaults:
weights.get with defaults 100, 1 and 1. -/
def objectiveWeights (weights : PyDict String Int) : Int × Int × Int :=
  (dictGet weights ("fairness_spread") 100,
   dictGet weights ("worked_days") 1,
   dictGet weights ("off_request") 1)

/-- Iteration order of work.values(): crew ids outer, days inner. -/
def workValuesOrder (crew : List CrewMember) (horizon_days : Int) : List Var :=
  (crew.map (fun c => c.crew_id)).flatMap (fun c_id =>
    (pyRange 1 (horizon_days + 1)).map (fun day => Var.work c_id day))

/-- The pref_terms list of build_rostering_model: one penalty-weighted
work variable per off request whose (crew_id, day) key is present in the
work dict, that is, whose crew id is a crew id and whose day is within
1..horizon_days. -/
def pref_terms (crew : List CrewMember) (horizon_days : Int)
    (off_requests : List OffRequest) : List (Int × Var) :=
  off_requests.filterMap (fun r =>
    if (crew.map (fun c => c.crew_id)).contains r.crew_id &&
        (pyRange 1 (horizon_days + 1)).contains r.day then
      some (r.penalty, Var.work r.crew_id r.day)
    else none)

/-- KPI section of build_rostering_model: spread, worked_days and
preference_cost variables with their defining constraints.  The last
equality is the one the code only reaches when pref_terms is non-empty;
build_rostering_model below guards it and errors otherwise, as the
Python does. -/
def kpiCstrs (crew : List CrewMember) (horizon_days : Int)
    (off_requests : List OffRequest) : List Cstr :=
  let cap := max_cap crew
  [.varDom .spread 0 cap,
   .linEq [(1, .spread), (-1, .max_load), (1, .min_load)] 0,
   .varDom .worked_days 0 ((crew.length : Int) * horizon_days),
   .linEq ((1, .worked_days) ::
     (workValuesOrder crew horizon_days).map (fun v => (-1, v))) 0,
   .varDom .preference_cost 0 ((off_requests.map (fun r => r.penalty)).sum),
   .linEq ((1, .preference_cost) ::
     (pref_terms crew horizon_days off_requests).map (fun t => (-t.1, t.2))) 0]

/-- RosteringModel: the constraints of the built CpModel plus the linear
expression handed to Minimize. -/
structure RosteringModel where
  constraints : List Cstr
  objective : List (Int × Var)
deriving DecidableEq

/-- Constraint list of build_rostering_model in the order the code adds
the constraints. -/
def rostering_constraints (crew : List CrewMember) (duties : List Duty)
    (eligible : PyDict (String × String) Bool)
    (conflicts : List (String × String))
    (horizon_days max_consecutive_work_days min_rest_days_per_week : Int)
    (off_requests : List OffRequest) : List Cstr :=
  xVarDoms crew duties eligible ++
  coverageCstrs crew duties eligible ++
  conflictCstrs crew duties eligible conflicts ++
  workloadCstrs crew duties eligible ++
  fairnessCstrs crew ++
  workCstrs crew duties eligible horizon_days ++
  maxConsecCstrs crew horizon_days max_consecutive_work_days ++
  weeklyRestCstrs crew horizon_days min_rest_days_per_week ++
  kpiCstrs crew horizon_days off_requests

/-- Objective expression of model.Minimize in build_rostering_model. -/
def rostering_objective (weights : PyDict String Int) : List (Int × Var) :=
  [((objectiveWeights weights).1, .spread),
   ((objectiveWeights weights).2.1, .worked_days),
   ((objectiveWeights weights).2.2, .preference_cost)]

/-- Embeds build_rostering_model from model/rostering_model.py.  Two
runtime failures of the Python code are modelled as errors: filling the
duties_by_day buckets raises KeyError when some duty's day lies outside
1..horizon_days, and the line
model.Add(preference_cost == sum(pref_terms) if pref_terms else 0)
parses as model.Add((... == ...) if pref_terms else 0), so with no
in-range off request Python evaluates model.Add(0) and CpModel.Add
raises TypeError for the plain int 0. -/
def build_rostering_model (crew : List CrewMember) (duties : List Duty)
    (eligible : PyDict (String × String) Bool)
    (conflicts : List (String × String))
    (horizon_days max_consecutive_work_days min_rest_days_per_week : Int)
    (weights : PyDict String Int)
    (off_requests : List OffRequest) : Except String RosteringModel :=
  if duties.any (fun d => !((pyRange 1 (horizon_days + 1)).contains d.day)) then
    .error ("KeyError: duties_by_day")
  else if (pref_terms crew horizon_days off_requests).isEmpty then
    .error ("TypeError: not supported: CpModel.Add(0)")
  else
    .ok ⟨rostering_constraints crew duties eligible conflicts horizon_days
           max_consecutive_work_days min_rest_days_per_week off_requests,
         rostering_objective weights⟩

/-- Observable pipeline outcome of solve_instance in
solver/solve_instance.py, after the loaders have produced the in-memory
instance (file reading is external): which crew_rostering steps the function
runs and what it hands on. -/
structure SolveOutcome where
  eligible : PyDict (String × String) Bool
  conflicts : List (String × String)
  coverageCheckRan : Bool
  reportedIssues : Option (List CoverageIssue)
  modelBuildAttempted : Bool
  buildResult : Except String RosteringModel
  solverInvoked : Bool

/-- Embeds solve_instance from solver/solve_instance.py.  After loading,
the function computes eligibility and conflict pairs and then calls
build_rostering_model directly: no coverage check is performed and no
issue list is produced.  The call passes the keyword arguments
late_end_threshold_min and early_start_threshold_min, which the
signature of build_rostering_model in model/rostering_model.py does not
declare, so Python raises TypeError at the call site, before the builder
body runs; the solver is never reached. -/
def solve_instance (scenario : Scenario) (crew : List CrewMember)
    (duties : List Duty) (prefs : List OffRequest) : SolveOutcome :=
  let eligible := compute_eligibility crew duties
  let conflicts := compute_conflict_pairs duties scenario.min_rest_minutes
  { eligible := eligible
    conflicts := conflicts
    coverageCheckRan := false
    reportedIssues := none
    modelBuildAttempted := true
    buildResult := .error
      ("TypeError: unexpected keyword argument late_end_threshold_min")
    solverInvoked := false }

/-- Observable pipeline outcome of main in
scripts/run_rostering_model.py. -/
structure ScriptOutcome where
  issues : List CoverageIssue
  abortedOnIssues : Bool
  modelBuildAttempted : Bool
  solverInvoked : Bool
deriving DecidableEq

/-- Embeds the pre-check decision of main in
scripts/run_rostering_model.py: it computes the coverage issues after
preprocessing and, when the list is non-empty, prints them and returns
before building any model; otherwise it proceeds to the
build_rostering_model call (which also passes the two undeclared keyword
arguments, so the build again raises TypeError and the solver is not
reached). -/
def run_rostering_model_main (scenario : Scenario) (crew : List CrewMember)
    (duties : List Duty) : ScriptOutcome :=
  let eligible := compute_eligibility crew duties
  let _conflicts := compute_conflict_pairs duties scenario.min_rest_minutes
  let issues := check_coverage_feasibility crew duties eligible
  if issues.isEmpty then
    { issues := issues
      abortedOnIssues := false
      modelBuildAttempted := true
      solverInvoked := false }
  else
    { issues := issues
      abortedOnIssues := true
      modelBuildAttempted := false
      solverInvoked := false }

/-- Per-term entries of the breakdown dict built by objective_breakdown
(weight, value, contribution). -/
structure BreakdownTerm where
  weight : Int
  value : Int
  contribution : Int
deriving DecidableEq

/-- Return value objective_breakdown would produce. -/
structure Breakdown where
  objective_value : Int
  objective_from_terms : Int
  terms : PyDict String BreakdownTerm
deriving DecidableEq

/-- Embeds objective_breakdown from solver/solve_instance.py.  The
function reads the five weights (each defaulting to 0, unlike the
builder defaults of 100, 1 and 1), evaluates spread, worked_days and
preference_cost from the solution, and then executes
weekly_rest = solver.Value(rm.weekly_rest_shortfall_total): the
RosteringModel dataclass of model/rostering_model.py declares no
attribute weekly_rest_shortfall_total (nor late_to_early_total), so
Python raises AttributeError there and no breakdown is returned. -/
def objective_breakdown (σ : Var → Int) (weights : PyDict String Int) :
    Except String Breakdown :=
  let _fairness_w := dictGet weights ("fairness_spread") 0
  let _worked_days_w := dictGet weights ("worked_days") 0
  let _pref_w := dictGet weights ("off_request") 0
  let _weekly_rest_w := dictGet weights ("weekly_rest_shortfall") 0
  let _late_to_early_w := dictGet weights ("late_to_early") 0
  let _spread := σ .max_load - σ .min_load
  let _worked_days := σ .worked_days
  let _preference_cost := σ .preference_cost
  .error ("AttributeError: RosteringModel has no attribute weekly_rest_shortfall_total")

/-- C10: duties_conflict is symmetric: for every pair of duties and
every min_rest_minutes, duties_conflict d1 d2 r equals
duties_conflict d2 d1 r. -/
theorem duties_conflict_symm (d1 d2 : Duty) (r : Int) :
    duties_conflict d1 d2 r = duties_conflict d2 d1 r := by
  simp only [duties_conflict]
  split_ifs <;> first | rfl | omega

/-- C3: on duties with positive duration, duties_conflict returns true
when the absolute-minute intervals (start and end shifted by
(day - 1) * 1440) overlap; for a non-overlapping pair it returns false
exactly when the gap from the earlier end to the later start is at least
min_rest_minutes, and true when that gap is smaller. -/
theorem duties_conflict_overlap_rest (d1 d2 : Duty) (r : Int)
    (h1 : d1.start_min < d1.end_min) (h2 : d2.start_min < d2.end_min) :
    (¬ (abs_end d1 ≤ abs_start d2 ∨ abs_end d2 ≤ abs_start d1) →
      duties_conflict d1 d2 r = true) ∧
    ((abs_end d1 ≤ abs_start d2 ∨ abs_end d2 ≤ abs_start d1) →
      (r ≤ (if abs_end d1 ≤ abs_start d2 then abs_start d2 - abs_end d1
            else abs_start d1 - abs_end d2) →
        duties_conflict d1 d2 r = false) ∧
      ((if abs_end d1 ≤ abs_start d2 then abs_start d2 - abs_end d1
        else abs_start d1 - abs_end d2) < r →
        duties_conflict d1 d2 r = true)) := by
  have hd1 : abs_start d1 < abs_end d1 := by
    simp only [abs_start, abs_end, MINUTES_PER_DAY]; omega
  have hd2 : abs_start d2 < abs_end d2 := by
    simp only [abs_start, abs_end, MINUTES_PER_DAY]; omega
  simp only [duties_conflict]
  refine ⟨fun hov => ?_, fun hnov => ⟨fun hgap => ?_, fun hgap => ?_⟩⟩ <;>
    split_ifs at * <;> first | rfl | omega

/-- Witness for C3 at a concrete pair: day-1 duty 08:00..10:00 and
day-1 duty 12:00..13:00, separated by 120 minutes. -/
theorem duties_conflict_overlap_rest_witness :
    duties_conflict ⟨("D1"), 1, 480, 600, ("CDG"), ("A320"), [(("CAPT"), 1)]⟩
        ⟨("D2"), 1, 720, 780, ("CDG"), ("A320"), [(("CAPT"), 1)]⟩ 90 = false := by
  have h := duties_conflict_overlap_rest
    ⟨("D1"), 1, 480, 600, ("CDG"), ("A320"), [(("CAPT"), 1)]⟩
    ⟨("D2"), 1, 720, 780, ("CDG"), ("A320"), [(("CAPT"), 1)]⟩ 90
    (by decide) (by decide)
  exact (h.2 (by decide)).1 (by decide)

/-- Membership characterization of compute_conflict_pairs: a pair is
produced exactly when two duties occur in the list in that order (as a
two-element sublist) and conflict. -/
theorem mem_compute_conflict_pairs (duties : List Duty) (r : Int) (p : String × String) :
    p ∈ compute_conflict_pairs duties r ↔
      ∃ d1 d2, List.Sublist [d1, d2] duties ∧ duties_conflict d1 d2 r = true ∧
        p = (d1.duty_id, d2.duty_id) := by
  induction duties with
  | nil =>
      simp only [compute_conflict_pairs, List.not_mem_nil, false_iff]
      rintro ⟨d1, d2, hsub, -, -⟩
      exact absurd (List.sublist_nil.mp hsub) (by simp)
  | cons d ds ih =>
      simp only [compute_conflict_pairs, List.mem_append, List.mem_map,
        List.mem_filter, ih]
      constructor
      · rintro (⟨d2, ⟨hd2, hc⟩, rfl⟩ | ⟨d1, d2, hsub, hc, rfl⟩)
        · exact ⟨d, d2, (List.singleton_sublist.mpr hd2).cons₂ d, hc, rfl⟩
        · exact ⟨d1, d2, hsub.cons d, hc, rfl⟩
      · rintro ⟨d1, d2, hsub, hc, rfl⟩
        cases hsub with
        | cons _ h2 => exact Or.inr ⟨d1, d2, h2, hc, rfl⟩
        | cons₂ _ h2 =>
            exact Or.inl ⟨d2, ⟨List.singleton_sublist.mp h2, hc⟩, rfl⟩

/-- First duty of the C9 instance: id B, 00:30..01:30 of day 1. -/
def dutyB9 : Duty := ⟨("B"), 1, 30, 90, ("CDG"), ("A320"), [(("CAPT"), 1)]⟩

/-- Second duty of the C9 instance: id A, 00:00..01:00 of day 1. -/
def dutyA9 : Duty := ⟨("A"), 1, 0, 60, ("CDG"), ("A320"), [(("CAPT"), 1)]⟩

/-- C9 counterexample: with the duty list [B-duty, A-duty] (not sorted
by id) the two overlapping duties produce the pair (B, A), whose first
component is not smaller than the second: compute_conflict_pairs emits
pairs in input-list order, not canonicalized by id. -/
theorem compute_conflict_pairs_order_cex :
    ((("B" : String), ("A" : String)) ∈ compute_conflict_pairs [dutyB9, dutyA9] 0) ∧
    ¬ (("B" : String) < ("A" : String)) := by
  constructor
  · decide
  · rw [String.lt_iff_toList_lt]; decide

/-- C9 amended: compute_conflict_pairs returns exactly the pairs of ids
of conflicting duties in input-list order (first-listed duty first); when
the duty list is sorted by strictly increasing duty_id, every returned
pair additionally has its smaller id first. -/
theorem compute_conflict_pairs_amended (duties : List Duty) (r : Int)
    (hsorted : duties.Pairwise (fun a b => a.duty_id < b.duty_id)) :
    (∀ p, p ∈ compute_conflict_pairs duties r ↔
      ∃ d1 d2, List.Sublist [d1, d2] duties ∧ duties_conflict d1 d2 r = true ∧
        p = (d1.duty_id, d2.duty_id)) ∧
    (∀ p ∈ compute_conflict_pairs duties r, p.1 < p.2) := by
  refine ⟨fun p => mem_compute_conflict_pairs duties r p, fun p hp => ?_⟩
  obtain ⟨d1, d2, hsub, -, rfl⟩ := (mem_compute_conflict_pairs duties r p).1 hp
  have hpw := hsorted.sublist hsub
  exact (List.pairwise_cons.mp hpw).1 d2 (List.mem_singleton.mpr rfl)

/-- Witness for C9's amended statement on the sorted list [A-duty,
B-duty]. -/
theorem compute_conflict_pairs_amended_witness :
    (∀ p, p ∈ compute_conflict_pairs [dutyA9, dutyB9] 0 ↔
      ∃ d1 d2, List.Sublist [d1, d2] [dutyA9, dutyB9] ∧
        duties_conflict d1 d2 0 = true ∧ p = (d1.duty_id, d2.duty_id)) ∧
    (∀ p ∈ compute_conflict_pairs [dutyA9, dutyB9] 0, p.1 < p.2) := by
  refine compute_conflict_pairs_amended [dutyA9, dutyB9] 0 ?_
  refine List.Pairwise.cons (fun b hb => ?_) (List.pairwise_singleton _ _)
  rw [List.mem_singleton] at hb
  subst hb
  show ("A" : String) < ("B" : String)
  rw [String.lt_iff_toList_lt]; decide

/-- Reverse lookup by key on a list whose keys are pairwise distinct
finds the element itself. -/
theorem reverse_find?_eq_of_nodup {α κ : Type} [BEq κ] [LawfulBEq κ] (key : α → κ)
    {l : List α} (hnd : (l.map key).Nodup) {a : α} (ha : a ∈ l) :
    l.reverse.find? (fun x => key x == key a) = some a := by
  have hsome : (l.reverse.find? (fun x => key x == key a)).isSome :=
    List.find?_isSome.mpr ⟨a, List.mem_reverse.mpr ha, by simp⟩
  obtain ⟨b, hb⟩ := Option.isSome_iff_exists.mp hsome
  have hbl : b ∈ l := List.mem_reverse.mp (List.mem_of_find?_eq_some hb)
  have hkey : key b = key a := by simpa using List.find?_some hb
  have hba : b = a := List.inj_on_of_nodup_map hnd hbl ha hkey
  rw [hb, hba]

/-- Python dict lookup on unique keys returns the stored value. -/
theorem dictGet_eq_of_nodup {κ β : Type} [BEq κ] [LawfulBEq κ]
    {m : PyDict κ β} (hnd : (m.map Prod.fst).Nodup) {k : κ} {v : β} (dflt : β)
    (hm : (k, v) ∈ m) : dictGet m k dflt = v := by
  have h := reverse_find?_eq_of_nodup Prod.fst hnd hm
  have h2 : m.reverse.find? (fun p => p.1 == k) = some (k, v) := h
  simp only [dictGet, h2]

/-- Key set of compute_eligibility: one entry per (crew, duty) pair, with
distinct keys when crew ids and duty ids are distinct. -/
theorem compute_eligibility_keys_nodup (crew : List CrewMember) (duties : List Duty)
    (hc : (crew.map (fun c => c.crew_id)).Nodup)
    (hd : (duties.map (fun d => d.duty_id)).Nodup) :
    ((compute_eligibility crew duties).map Prod.fst).Nodup := by
  have hcp : crew.Pairwise (fun a b => a.crew_id ≠ b.crew_id) :=
    List.pairwise_map.mp hc
  have hdp : duties.Pairwise (fun a b => a.duty_id ≠ b.duty_id) :=
    List.pairwise_map.mp hd
  have hkeys : ((compute_eligibility crew duties).map Prod.fst) =
      crew.flatMap (fun c => duties.map (fun d => (c.crew_id, d.duty_id))) := by
    simp only [compute_eligibility, List.map_flatMap, List.map_map]
    rfl
  rw [hkeys, List.nodup_flatMap]
  constructor
  · intro c _
    exact List.Pairwise.map _ (fun a b h => by simpa using h) hdp
  · refine hcp.imp ?_
    intro a b hne p hpa hpb
    simp only [List.mem_map] at hpa hpb
    obtain ⟨d1, -, rfl⟩ := hpa
    obtain ⟨d2, -, h⟩ := hpb
    exact hne (congrArg Prod.fst h).symm

/-- Unfolding of the eligibility boolean into the three conditions of
the claim: role is a key of the coverage dict, bases agree, aircraft
type is among the qualifications. -/
theorem eligiblePair_iff (c : CrewMember) (d : Duty) :
    eligiblePair c d = true ↔
      ((∃ n, (c.role, n) ∈ d.coverage) ∧ c.base = d.base ∧
        d.aircraft_type ∈ c.qualified_types) := by
  simp only [eligiblePair, Bool.and_eq_true, List.any_eq_true, beq_iff_eq]
  constructor
  · rintro ⟨⟨⟨rr, hrr, hr⟩, hbase⟩, hqual⟩
    refine ⟨⟨rr.2, by rw [← hr]; simpa [Prod.mk.eta] using hrr⟩, hbase, ?_⟩
    simpa using hqual
  · rintro ⟨⟨n, hn⟩, hbase, hqual⟩
    exact ⟨⟨⟨(c.role, n), hn, rfl⟩, hbase⟩, by simpa using hqual⟩

/-- C4: compute_eligibility is defined on every (crew_id, duty_id) pair
of the input lists, and (for unique ids) a pair's value is true exactly
when the crew member's role is a key of the duty's coverage dict, the
bases agree, and the duty's aircraft type is among the crew member's
qualified types; the value is a pure function of these static
attributes. -/
theorem compute_eligibility_spec (crew : List CrewMember) (duties : List Duty)
    (hc : (crew.map (fun c => c.crew_id)).Nodup)
    (hd : (duties.map (fun d => d.duty_id)).Nodup) :
    ∀ c ∈ crew, ∀ d ∈ duties,
      (∃ v, ((c.crew_id, d.duty_id), v) ∈ compute_eligibility crew duties) ∧
      (dictGet (compute_eligibility crew duties) (c.crew_id, d.duty_id) false = true ↔
        ((∃ n, (c.role, n) ∈ d.coverage) ∧ c.base = d.base ∧
          d.aircraft_type ∈ c.qualified_types)) := by
  intro c hcm d hdm
  have hmem : ((c.crew_id, d.duty_id), eligiblePair c d) ∈
      compute_eligibility crew duties := by
    simp only [compute_eligibility, List.mem_flatMap, List.mem_map]
    exact ⟨c, hcm, d, hdm, rfl⟩
  refine ⟨⟨_, hmem⟩, ?_⟩
  rw [dictGet_eq_of_nodup (compute_eligibility_keys_nodup crew duties hc hd)
    false hmem]
  exact eligiblePair_iff c d

/-- Crew member used by the C4 witness. -/
def crewC4 : CrewMember := ⟨("C1"), ("CAPT"), ("CDG"), [("A320")], 6000⟩

/-- Duty used by the C4 witness. -/
def dutyD4 : Duty := ⟨("D1"), 1, 480, 600, ("CDG"), ("A320"), [(("CAPT"), 1)]⟩

/-- Witness for C4 on a one-crew, one-duty instance. -/
theorem compute_eligibility_spec_witness :
    (∃ v, ((crewC4.crew_id, dutyD4.duty_id), v) ∈
      compute_eligibility [crewC4] [dutyD4]) ∧
    (dictGet (compute_eligibility [crewC4] [dutyD4])
        (crewC4.crew_id, dutyD4.duty_id) false = true ↔
      ((∃ n, (crewC4.role, n) ∈ dutyD4.coverage) ∧ crewC4.base = dutyD4.base ∧
        dutyD4.aircraft_type ∈ crewC4.qualified_types)) :=
  compute_eligibility_spec [crewC4] [dutyD4] (by decide) (by decide)
    crewC4 (by decide) dutyD4 (by decide)

/-- Scenario used by the C5 instances. -/
def scenario5 : Scenario := ⟨3, 600, 5, 1, 1200, 480, []⟩

/-- Crew of the C5 counterexample: a single captain. -/
def crew5 : List CrewMember := [⟨("C1"), ("CAPT"), ("CDG"), [("A320")], 6000⟩]

/-- Duties of the C5 counterexample: one duty requiring two captains. -/
def duty5 : List Duty :=
  [⟨("D1"), 1, 480, 600, ("CDG"), ("A320"), [(("CAPT"), 2)]⟩]

/-- C5 counterexample: on an instance whose coverage check reports an
issue (one duty requiring two captains, one eligible captain),
solve_instance still runs no coverage check, reports no issue list, and
proceeds to the model-build call. -/
theorem solve_instance_skips_precheck_cex :
    check_coverage_feasibility crew5 duty5 (compute_eligibility crew5 duty5) ≠ [] ∧
    (solve_instance scenario5 crew5 duty5 []).coverageCheckRan = false ∧
    (solve_instance scenario5 crew5 duty5 []).reportedIssues = none ∧
    (solve_instance scenario5 crew5 duty5 []).modelBuildAttempted = true := by
  refine ⟨by decide, rfl, rfl, rfl⟩

/-- C5 amended: solve_instance performs no coverage pre-check on any
instance: after preprocessing it reports no issues and goes straight to
the build_rostering_model call, which raises TypeError for its two
undeclared keyword arguments, so the solver is never invoked either;
the pre-check-and-abort pipeline of the claim is instead implemented by
main in scripts/run_rostering_model.py, which on a non-empty issue list
reports it and returns without building a model or calling the solver. -/
theorem solve_instance_no_precheck (scenario : Scenario) (crew : List CrewMember)
    (duties : List Duty) (prefs : List OffRequest)
    (hissues : check_coverage_feasibility crew duties
      (compute_eligibility crew duties) ≠ []) :
    ((solve_instance scenario crew duties prefs).coverageCheckRan = false ∧
     (solve_instance scenario crew duties prefs).reportedIssues = none ∧
     (solve_instance scenario crew duties prefs).modelBuildAttempted = true ∧
     (solve_instance scenario crew duties prefs).solverInvoked = false ∧
     (solve_instance scenario crew duties prefs).buildResult =
       .error ("TypeError: unexpected keyword argument late_end_threshold_min")) ∧
    ((run_rostering_model_main scenario crew duties).abortedOnIssues = true ∧
     (run_rostering_model_main scenario crew duties).issues =
       check_coverage_feasibility crew duties (compute_eligibility crew duties) ∧
     (run_rostering_model_main scenario crew duties).modelBuildAttempted = false ∧
     (run_rostering_model_main scenario crew duties).solverInvoked = false) := by
  have hne : (check_coverage_feasibility crew duties
      (compute_eligibility crew duties)).isEmpty = false := by
    simpa [List.isEmpty_iff] using hissues
  refine ⟨⟨rfl, rfl, rfl, rfl, rfl⟩, ?_⟩
  simp only [run_rostering_model_main, hne]
  simp

/-- Witness for C5's amended statement on the shortfall instance. -/
theorem solve_instance_no_precheck_witness :
    ((solve_instance scenario5 crew5 duty5 []).coverageCheckRan = false ∧
     (solve_instance scenario5 crew5 duty5 []).reportedIssues = none ∧
     (solve_instance scenario5 crew5 duty5 []).modelBuildAttempted = true ∧
     (solve_instance scenario5 crew5 duty5 []).solverInvoked = false ∧
     (solve_instance scenario5 crew5 duty5 []).buildResult =
       .error ("TypeError: unexpected keyword argument late_end_threshold_min")) ∧
    ((run_rostering_model_main scenario5 crew5 duty5).abortedOnIssues = true ∧
     (run_rostering_model_main scenario5 crew5 duty5).issues =
       check_coverage_feasibility crew5 duty5 (compute_eligibility crew5 duty5) ∧
     (run_rostering_model_main scenario5 crew5 duty5).modelBuildAttempted = false ∧
     (run_rostering_model_main scenario5 crew5 duty5).solverInvoked = false) :=
  solve_instance_no_precheck scenario5 crew5 duty5 [] (by decide)

/-- C6: objective_breakdown can reconcile no solve at all against the
model of build_rostering_model: it reads the attribute
weekly_rest_shortfall_total, which the RosteringModel dataclass does not
declare, so every call raises AttributeError instead of returning the
weighted-term total. -/
theorem objective_breakdown_attribute_error (σ : Var → Int)
    (weights : PyDict String Int) :
    objective_breakdown σ weights =
      .error ("AttributeError: RosteringModel has no attribute weekly_rest_shortfall_total") :=
  rfl

/-- Crew of the C7 failing input: the two-crew scenario of the spec. -/
def crew7 : List CrewMember :=
  [⟨("C1"), ("CAPT"), ("CDG"), [("A320")], 6000⟩,
   ⟨("C2"), ("FO"), ("CDG"), [("A320")], 6000⟩]

/-- Duties of the C7 failing input: one duty needing a captain and a
first officer. -/
def duty7 : List Duty :=
  [⟨("D1"), 1, 480, 600, ("CDG"), ("A320"), [(("CAPT"), 1), (("FO"), 1)]⟩]

/-- C7 failing input: with no off request in range, pref_terms is empty,
so the Python line model.Add(preference_cost == sum(pref_terms) if
pref_terms else 0) evaluates model.Add(0) and raises TypeError instead
of constraining preference_cost to 0 as the claim states. -/
theorem build_rostering_model_add_zero_typeerror :
    build_rostering_model crew7 duty7 (compute_eligibility crew7 duty7)
      (compute_conflict_pairs duty7 600) 7 5 1 [] [] =
      .error ("TypeError: not supported: CpModel.Add(0)") := rfl

/-- Evaluation of a coefficient-1 linear expression is the plain sum. -/
theorem evalTerms_map_one (σ : Var → Int) (vs : List Var) :
    evalTerms σ (vs.map (fun v => (1, v))) = (vs.map σ).sum := by
  induction vs with
  | nil => rfl
  | cons a l ih =>
      simp only [List.map_cons, evalTerms, List.sum_cons] at *
      omega

/-- Evaluation of a coefficient-(-1) linear expression is the negated sum. -/
theorem evalTerms_map_negone (σ : Var → Int) (vs : List Var) :
    evalTerms σ (vs.map (fun v => (-1, v))) = -(vs.map σ).sum := by
  induction vs with
  | nil => rfl
  | cons a l ih =>
      simp only [List.map_cons, evalTerms, List.sum_cons] at *
      omega

/-- Evaluation of a cons linear expression. -/
theorem evalTerms_cons (σ : Var → Int) (a : Int) (v : Var) (ts : List (Int × Var)) :
    evalTerms σ ((a, v) :: ts) = a * σ v + evalTerms σ ts := by
  simp [evalTerms]

/-- Evaluation of the empty linear expression. -/
theorem evalTerms_nil (σ : Var → Int) : evalTerms σ [] = 0 := rfl

/-- A sum of 0/1 values that is at least 1 has a 1 somewhere. -/
theorem exists_one_of_one_le_sum {σ : Var → Int} {l : List Var}
    (hb : ∀ v ∈ l, σ v = 0 ∨ σ v = 1) (hs : 1 ≤ (l.map σ).sum) :
    ∃ v ∈ l, σ v = 1 := by
  induction l with
  | nil => simp at hs
  | cons a l ih =>
      rcases hb a (List.mem_cons_self a l) with h0 | h1
      · rw [List.map_cons, List.sum_cons, h0, zero_add] at hs
        obtain ⟨v, hv, hone⟩ := ih (fun v hv => hb v (List.mem_cons_of_mem a hv)) hs
        exact ⟨v, List.mem_cons_of_mem a hv, hone⟩
      · exact ⟨a, List.mem_cons_self a l, h1⟩

/-- A filterMap of an if-some-else-none is a map of a filter. -/
theorem filterMap_if_eq_map_filter {α β : Type} (p : α → Bool) (f : α → β)
    (l : List α) :
    l.filterMap (fun a => if p a then some (f a) else none) = (l.filter p).map f := by
  induction l with
  | nil => rfl
  | cons a l ih =>
      by_cases h : p a <;>
        simp [List.filterMap_cons, List.filter_cons, h, ih]

/-- Lookup crew_by_id of an actual crew member is that member when crew
ids are distinct. -/
theorem crewById_eq_self {crew : List CrewMember}
    (hc : (crew.map (fun c => c.crew_id)).Nodup) {c : CrewMember}
    (hcm : c ∈ crew) : crewById crew c.crew_id = some c := by
  unfold crewById
  exact reverse_find?_eq_of_nodup (fun c : CrewMember => c.crew_id) hc hcm

/-- Lookup duty_by_id of an actual duty is that duty when duty ids are
distinct. -/
theorem dutyById_eq_self {duties : List Duty}
    (hd : (duties.map (fun d => d.duty_id)).Nodup) {d : Duty}
    (hdm : d ∈ duties) : dutyById duties d.duty_id = some d := by
  unfold dutyById
  exact reverse_find?_eq_of_nodup (fun d : Duty => d.duty_id) hd hdm

/-- For a duty of the list, variable existence reduces to the
eligibility lookup. -/
theorem xExists_of_mem {duties : List Duty} {d : Duty} (hdm : d ∈ duties)
    (eligible : PyDict (String × String) Bool) (c_id : String) :
    xExists duties eligible c_id d.duty_id = eligGet eligible c_id d.duty_id := by
  have hcont : (duties.map (fun d => d.duty_id)).contains d.duty_id = true := by
    simp only [List.contains_eq_any_beq, List.any_eq_true, beq_iff_eq]
    exact ⟨d.duty_id, List.mem_map.mpr ⟨d, hdm, rfl⟩, rfl⟩
  unfold xExists
  rw [hcont, Bool.true_and]

/-- Under distinct crew ids, vars_for_role is the role-and-eligibility
filter of the crew list mapped to assignment variables. -/
theorem vars_for_role_eq (crew : List CrewMember) (duties : List Duty)
    (eligible : PyDict (String × String) Bool) (d_id role : String)
    (hc : (crew.map (fun c => c.crew_id)).Nodup) :
    vars_for_role crew duties eligible d_id role =
      (crew.filter (fun c => c.role == role && xExists duties eligible c.crew_id d_id)).map
        (fun c => Var.x c.crew_id d_id) := by
  unfold vars_for_role
  rw [List.filterMap_map]
  rw [← filterMap_if_eq_map_filter
    (fun c => c.role == role && xExists duties eligible c.crew_id d_id)
    (fun c => Var.x c.crew_id d_id) crew]
  apply List.filterMap_congr
  intro c hcm
  simp only [Function.comp]
  rw [crewById_eq_self hc hcm]

/-- The coverage constraint of a duty and coverage entry is among the
emitted coverage constraints when duty ids are distinct. -/
theorem coverage_cstr_mem (crew : List CrewMember) (duties : List Duty)
    (eligible : PyDict (String × String) Bool)
    (hd : (duties.map (fun d => d.duty_id)).Nodup) {d : Duty} (hdm : d ∈ duties)
    {rr : String × Int} (hrr : rr ∈ d.coverage) :
    Cstr.linEq ((vars_for_role crew duties eligible d.duty_id rr.1).map
      (fun v => (1, v))) rr.2 ∈ coverageCstrs crew duties eligible := by
  simp only [coverageCstrs, List.mem_flatMap]
  refine ⟨d.duty_id, List.mem_map.mpr ⟨d, hdm, rfl⟩, ?_⟩
  rw [dutyById_eq_self hd hdm]
  exact List.mem_map.mpr ⟨rr, hrr, rfl⟩

/-- Extraction of the exact-coverage sum from any valuation satisfying
the coverage constraints. -/
theorem coverage_exact_of_satisfies (crew : List CrewMember) (duties : List Duty)
    (eligible : PyDict (String × String) Bool)
    (hc : (crew.map (fun c => c.crew_id)).Nodup)
    (hd : (duties.map (fun d => d.duty_id)).Nodup)
    {σ : Var → Int}
    (hs : ∀ cst ∈ coverageCstrs crew duties eligible, cst.holdsB σ = true)
    {d : Duty} (hdm : d ∈ duties) {rr : String × Int} (hrr : rr ∈ d.coverage) :
    ((crew.filter (fun c => c.role == rr.1 &&
        eligGet eligible c.crew_id d.duty_id)).map
      (fun c => σ (Var.x c.crew_id d.duty_id))).sum = rr.2 := by
  have h := hs _ (coverage_cstr_mem crew duties eligible hd hdm hrr)
  simp only [Cstr.holdsB, beq_iff_eq] at h
  rw [vars_for_role_eq crew duties eligible d.duty_id rr.1 hc,
       evalTerms_map_one] at h
  have hfilter : crew.filter (fun c => c.role == rr.1 &&
        eligGet eligible c.crew_id d.duty_id) =
      crew.filter (fun c => c.role == rr.1 &&
        xExists duties eligible c.crew_id d.duty_id) := by
    apply List.filter_congr
    intro c _
    rw [xExists_of_mem hdm eligible c.crew_id]
  rw [hfilter]
  simpa [List.map_map, Function.comp_def] using h

/-- The RosteringModel returned by a successful build carries the
rostering constraint list and objective. -/
theorem build_ok_eq {crew : List CrewMember} {duties : List Duty}
    {eligible : PyDict (String × String) Bool}
    {conflicts : List (String × String)}
    {horizon_days max_consecutive_work_days min_rest_days_per_week : Int}
    {weights : PyDict String Int} {off_requests : List OffRequest}
    {M : RosteringModel}
    (h : build_rostering_model crew duties eligible conflicts horizon_days
      max_consecutive_work_days min_rest_days_per_week weights off_requests =
      .ok M) :
    M.constraints = rostering_constraints crew duties eligible conflicts
      horizon_days max_consecutive_work_days min_rest_days_per_week off_requests ∧
    M.objective = rostering_objective weights := by
  simp only [build_rostering_model] at h
  split_ifs at h
  all_goals
    first
      | exact Except.noConfusion h
      | (cases h; exact ⟨rfl, rfl⟩)

/-- Coverage constraints sit inside the feasibility model. -/
theorem coverage_subset_feasibility {crew : List CrewMember} {duties : List Duty}
    {eligible : PyDict (String × String) Bool}
    {conflicts : List (String × String)} {cst : Cstr}
    (h : cst ∈ coverageCstrs crew duties eligible) :
    cst ∈ build_feasibility_model crew duties eligible conflicts := by
  simp only [build_feasibility_model, List.mem_append]
  exact Or.inl (Or.inr h)

/-- Coverage constraints sit inside the rostering constraint list. -/
theorem coverage_subset_rostering {crew : List CrewMember} {duties : List Duty}
    {eligible : PyDict (String × String) Bool}
    {conflicts : List (String × String)}
    {horizon_days K R : Int} {off_requests : List OffRequest} {cst : Cstr}
    (h : cst ∈ coverageCstrs crew duties eligible) :
    cst ∈ rostering_constraints crew duties eligible conflicts horizon_days
      K R off_requests := by
  simp only [rostering_constraints, List.mem_append]
  tauto

/-- C1: in both the feasibility model and the rostering model, every
duty and every role of its coverage dict yields an equality constraint,
so every solution of either model assigns exactly the required number of
eligible crew of that role to that duty. -/
theorem coverage_constraints_exact (crew : List CrewMember) (duties : List Duty)
    (eligible : PyDict (String × String) Bool)
    (conflicts : List (String × String))
    (horizon_days K R : Int) (weights : PyDict String Int)
    (off_requests : List OffRequest)
    (hc : (crew.map (fun c => c.crew_id)).Nodup)
    (hd : (duties.map (fun d => d.duty_id)).Nodup)
    {σ : Var → Int}
    (hfeas : satisfies σ (build_feasibility_model crew duties eligible conflicts))
    {M : RosteringModel}
    (hbuild : build_rostering_model crew duties eligible conflicts horizon_days
      K R weights off_requests = .ok M)
    {τ : Var → Int} (hros : satisfies τ M.constraints) :
    ∀ d ∈ duties, ∀ rr ∈ d.coverage,
      ((crew.filter (fun c => c.role == rr.1 &&
          eligGet eligible c.crew_id d.duty_id)).map
        (fun c => σ (Var.x c.crew_id d.duty_id))).sum = rr.2 ∧
      ((crew.filter (fun c => c.role == rr.1 &&
          eligGet eligible c.crew_id d.duty_id)).map
        (fun c => τ (Var.x c.crew_id d.duty_id))).sum = rr.2 := by
  intro d hdm rr hrr
  constructor
  · exact coverage_exact_of_satisfies crew duties eligible hc hd
      (fun cst hcst => hfeas cst (coverage_subset_feasibility hcst)) hdm hrr
  · have hMc := (build_ok_eq hbuild).1
    refine coverage_exact_of_satisfies crew duties eligible hc hd
      (fun cst hcst => hros cst ?_) hdm hrr
    rw [hMc]
    exact coverage_subset_rostering hcst

/-- Characterization of the day_vars list of the work-indicator loop. -/
theorem mem_day_vars_for {duties : List Duty}
    {eligible : PyDict (String × String) Bool} {c_id : String} {day : Int}
    {v : Var} :
    v ∈ day_vars_for duties eligible c_id day ↔
      ∃ d ∈ duties, d.day = day ∧ eligGet eligible c_id d.duty_id = true ∧
        v = Var.x c_id d.duty_id := by
  simp only [day_vars_for, List.mem_filterMap, List.mem_filter, beq_iff_eq]
  constructor
  · rintro ⟨d, ⟨hdm, hday⟩, hsome⟩
    by_cases he : eligGet eligible c_id d.duty_id = true
    · rw [if_pos he] at hsome
      exact ⟨d, hdm, hday, he, (Option.some.inj hsome).symm⟩
    · rw [if_neg he] at hsome
      exact absurd hsome (by simp)
  · rintro ⟨d, hdm, hday, he, rfl⟩
    exact ⟨d, ⟨hdm, hday⟩, by rw [if_pos he]⟩

/-- Domain constraints of the assignment variables are part of the
rostering constraint list. -/
theorem xVarDom_mem_rostering {crew : List CrewMember} {duties : List Duty}
    {eligible : PyDict (String × String) Bool}
    {conflicts : List (String × String)}
    {horizon_days K R : Int} {off_requests : List OffRequest}
    {c_id d_id : String}
    (hc : c_id ∈ crew.map (fun c => c.crew_id))
    (hd : d_id ∈ duties.map (fun d => d.duty_id))
    (he : eligGet eligible c_id d_id = true) :
    Cstr.varDom (.x c_id d_id) 0 1 ∈
      rostering_constraints crew duties eligible conflicts horizon_days K R
        off_requests := by
  simp only [rostering_constraints, List.mem_append]
  refine Or.inl (Or.inl (Or.inl (Or.inl (Or.inl (Or.inl (Or.inl (Or.inl ?_)))))))
  simp only [xVarDoms, List.mem_flatMap]
  exact ⟨c_id, hc, List.mem_filterMap.mpr ⟨d_id, hd, by rw [if_pos he]⟩⟩

/-- Work-indicator constraints of a crew id and in-horizon day are part
of the rostering constraint list. -/
theorem workCstrsFor_mem_rostering {crew : List CrewMember} {duties : List Duty}
    {eligible : PyDict (String × String) Bool}
    {conflicts : List (String × String)}
    {horizon_days K R : Int} {off_requests : List OffRequest}
    {c_id : String} {day : Int} {cst : Cstr}
    (hc : c_id ∈ crew.map (fun c => c.crew_id))
    (hday : day ∈ pyRange 1 (horizon_days + 1))
    (h : cst ∈ workCstrsFor duties eligible c_id day) :
    cst ∈ rostering_constraints crew duties eligible conflicts horizon_days K R
      off_requests := by
  simp only [rostering_constraints, List.mem_append]
  refine Or.inl (Or.inl (Or.inl (Or.inr ?_)))
  simp only [workCstrs, List.mem_flatMap]
  exact ⟨c_id, hc, day, hday, h⟩

/-- C2: in every solution of a successfully built rostering model, the
work indicator of a crew id and an in-horizon day is 1 exactly when some
assignment variable of that crew for a duty of that day is 1, and it is
0 when the crew member has no eligible duty that day. -/
theorem work_indicator_biconditional (crew : List CrewMember) (duties : List Duty)
    (eligible : PyDict (String × String) Bool)
    (conflicts : List (String × String))
    (horizon_days K R : Int) (weights : PyDict String Int)
    (off_requests : List OffRequest)
    {M : RosteringModel}
    (hbuild : build_rostering_model crew duties eligible conflicts horizon_days
      K R weights off_requests = .ok M)
    {σ : Var → Int} (hs : satisfies σ M.constraints)
    {c_id : String} (hc : c_id ∈ crew.map (fun c => c.crew_id))
    {day : Int} (hday : day ∈ pyRange 1 (horizon_days + 1)) :
    (σ (.work c_id day) = 1 ↔
      ∃ d ∈ duties, d.day = day ∧ eligGet eligible c_id d.duty_id = true ∧
        σ (.x c_id d.duty_id) = 1) ∧
    ((∀ d ∈ duties, d.day = day → eligGet eligible c_id d.duty_id = false) →
      σ (.work c_id day) = 0) := by
  rw [(build_ok_eq hbuild).1] at hs
  have hget : ∀ cst ∈ workCstrsFor duties eligible c_id day,
      cst.holdsB σ = true :=
    fun cst hcst => hs cst (workCstrsFor_mem_rostering hc hday hcst)
  have hwdom : (0 : Int) ≤ σ (.work c_id day) ∧ σ (.work c_id day) ≤ 1 := by
    have := hget (.varDom (.work c_id day) 0 1) (by simp [workCstrsFor])
    simpa [Cstr.holdsB] using this
  have hxb : ∀ v ∈ day_vars_for duties eligible c_id day, σ v = 0 ∨ σ v = 1 := by
    intro v hv
    obtain ⟨d, hdm, -, he, rfl⟩ := mem_day_vars_for.mp hv
    have hdm2 : d.duty_id ∈ duties.map (fun d => d.duty_id) :=
      List.mem_map.mpr ⟨d, hdm, rfl⟩
    have := hs _ (xVarDom_mem_rostering hc hdm2 he)
    have h2 : (0 : Int) ≤ σ (.x c_id d.duty_id) ∧ σ (.x c_id d.duty_id) ≤ 1 := by
      simpa [Cstr.holdsB] using this
    omega
  rcases hdvs : day_vars_for duties eligible c_id day with - | ⟨v0, rest⟩
  · -- no eligible duty on this day: work is constrained to 0
    have hzero : σ (.work c_id day) = 0 := by
      have := hget (.linEq [(1, .work c_id day)] 0)
        (by simp [workCstrsFor, hdvs])
      simpa [Cstr.holdsB, evalTerms] using this
    refine ⟨⟨fun h1 => absurd (h1 ▸ hzero) (by norm_num), ?_⟩, fun _ => hzero⟩
    rintro ⟨d, hdm, hday2, he, hx1⟩
    have : Var.x c_id d.duty_id ∈ day_vars_for duties eligible c_id day :=
      mem_day_vars_for.mpr ⟨d, hdm, hday2, he, rfl⟩
    rw [hdvs] at this
    exact absurd this (List.not_mem_nil _)
  · -- at least one candidate assignment variable exists
    have hne : (day_vars_for duties eligible c_id day).isEmpty = false := by
      rw [hdvs]; rfl
    have hsum : σ (.work c_id day) ≤
        ((day_vars_for duties eligible c_id day).map σ).sum := by
      have := hget (.linLe ((1, .work c_id day) ::
        (day_vars_for duties eligible c_id day).map (fun v => (-1, v))) 0)
        (by
          simp only [workCstrsFor, List.mem_cons, hne, Bool.false_eq_true,
            if_false, List.mem_append, List.mem_map, List.mem_singleton]
          tauto)
      simp only [Cstr.holdsB, decide_eq_true_eq] at this
      rw [evalTerms_cons, evalTerms_map_negone] at this
      omega
    have hper : ∀ v ∈ day_vars_for duties eligible c_id day,
        σ v ≤ σ (.work c_id day) := by
      intro v hv
      have := hget (.linLe [(1, v), (-1, .work c_id day)] 0)
        (by
          simp only [workCstrsFor, List.mem_cons, hne, Bool.false_eq_true,
            if_false, List.mem_append, List.mem_map, List.mem_singleton]
          exact Or.inr (Or.inl ⟨v, hv, rfl⟩))
      simp only [Cstr.holdsB, decide_eq_true_eq] at this
      rw [evalTerms_cons, evalTerms_cons, evalTerms_nil] at this
      omega
    constructor
    constructor
    · intro h1
      have hge : 1 ≤ ((day_vars_for duties eligible c_id day).map σ).sum := by
        omega
      obtain ⟨v, hv, hone⟩ := exists_one_of_one_le_sum hxb hge
      obtain ⟨d, hdm, hday2, he, rfl⟩ := mem_day_vars_for.mp hv
      exact ⟨d, hdm, hday2, he, hone⟩
    · rintro ⟨d, hdm, hday2, he, hx1⟩
      have hv : Var.x c_id d.duty_id ∈ day_vars_for duties eligible c_id day :=
        mem_day_vars_for.mpr ⟨d, hdm, hday2, he, rfl⟩
      have := hper _ hv
      omega
    · intro hnone
      exfalso
      have hv0 : v0 ∈ day_vars_for duties eligible c_id day := by
        rw [hdvs]; exact List.mem_cons_self v0 rest
      obtain ⟨d, hdm, hday2, he, rfl⟩ := mem_day_vars_for.mp hv0
      rw [hnone d hdm hday2] at he
      exact Bool.false_ne_true he

/-- Crew member of the concrete witness roster. -/
def crewW1 : CrewMember := ⟨("C1"), ("CAPT"), ("CDG"), [("A320")], 600⟩

/-- Crew list of the concrete witness roster. -/
def crewW : List CrewMember := [crewW1]

/-- Duty of the concrete witness roster: 60 minutes on day 1. -/
def dutyW1 : Duty := ⟨("D1"), 1, 480, 540, ("CDG"), ("A320"), [(("CAPT"), 1)]⟩

/-- Duty list of the concrete witness roster. -/
def dutyW : List Duty := [dutyW1]

/-- Off request of the concrete witness roster (in range, so the build
succeeds). -/
def offW : List OffRequest := [⟨("C1"), 1, 5⟩]

/-- Eligibility dict of the concrete witness roster. -/
def eligW : PyDict (String × String) Bool := compute_eligibility crewW dutyW

/-- The successfully built rostering model of the witness roster. -/
def modelW : RosteringModel :=
  ⟨rostering_constraints crewW dutyW eligW [] 1 3 0 offW,
   rostering_objective []⟩

/-- A solution of the witness roster: the captain takes the duty. -/
def σW : Var → Int
  | .x _ _ => 1
  | .work _ _ => 1
  | .total_minutes _ => 60
  | .max_load => 60
  | .min_load => 60
  | .spread => 0
  | .worked_days => 1
  | .preference_cost => 5

/-- Witness for C1 on the one-captain, one-duty roster. -/
theorem coverage_constraints_exact_witness :
    ((crewW.filter (fun c => c.role == ("CAPT") &&
        eligGet eligW c.crew_id dutyW1.duty_id)).map
      (fun c => σW (Var.x c.crew_id dutyW1.duty_id))).sum = 1 ∧
    ((crewW.filter (fun c => c.role == ("CAPT") &&
        eligGet eligW c.crew_id dutyW1.duty_id)).map
      (fun c => σW (Var.x c.crew_id dutyW1.duty_id))).sum = 1 :=
  @coverage_constraints_exact crewW dutyW eligW [] 1 3 0 [] offW
    (by decide) (by decide) σW (by decide) modelW rfl σW (by decide)
    dutyW1 (by decide) ((("CAPT") : String), (1 : Int)) (by decide)

/-- Witness for C2 on the one-captain, one-duty roster. -/
theorem work_indicator_biconditional_witness :
    (σW (.work ("C1") 1) = 1 ↔
      ∃ d ∈ dutyW, d.day = 1 ∧ eligGet eligW ("C1") d.duty_id = true ∧
        σW (.x ("C1") d.duty_id) = 1) ∧
    ((∀ d ∈ dutyW, d.day = 1 → eligGet eligW ("C1") d.duty_id = false) →
      σW (.work ("C1") 1) = 0) :=
  @work_indicator_biconditional crewW dutyW eligW [] 1 3 0 [] offW
    modelW rfl σW (by decide) ("C1") (by decide) 1 (by decide)

/-- The lexicographic sort key order spelled out as the claim's
severity-then-day-then-duty-then-role order. -/
theorem issueLE_iff (a b : CoverageIssue) : issueLE a b ↔ issueBefore a b := by
  unfold issueLE issueKey issueBefore
  rw [Prod.Lex.le_iff, Prod.Lex.le_iff, Prod.Lex.le_iff]

/-- Characterization of one inner-loop step of the coverage check. -/
theorem coverageIssueFor_eq_some {crew : List CrewMember}
    {eligible : PyDict (String × String) Bool} {d : Duty} {rr : String × Int}
    {i : CoverageIssue} :
    coverageIssueFor crew eligible d rr = some i ↔
      ((eligible_crew_for crew eligible d rr.1).length : Int) < rr.2 ∧
      i = ⟨d.duty_id, d.day, rr.1, rr.2,
        (eligible_crew_for crew eligible d rr.1).length,
        pySortStr (eligible_crew_for crew eligible d rr.1)⟩ := by
  simp only [coverageIssueFor]
  by_cases h : ((eligible_crew_for crew eligible d rr.1).length : Int) < rr.2
  · rw [if_pos h]
    constructor
    · intro hs
      exact ⟨h, (Option.some.inj hs).symm⟩
    · intro h2
      rw [h2.2]
  · rw [if_neg h]
    constructor
    · intro hs
      exact absurd hs (by simp)
    · intro h2
      exact absurd h2.1 h

/-- Membership in the unsorted issues list. -/
theorem mem_coverageIssuesRaw {crew : List CrewMember} {duties : List Duty}
    {eligible : PyDict (String × String) Bool} {i : CoverageIssue} :
    i ∈ coverageIssuesRaw crew duties eligible ↔
      ∃ d ∈ duties, ∃ rr ∈ d.coverage,
        ((eligible_crew_for crew eligible d rr.1).length : Int) < rr.2 ∧
        i = ⟨d.duty_id, d.day, rr.1, rr.2,
          (eligible_crew_for crew eligible d rr.1).length,
          pySortStr (eligible_crew_for crew eligible d rr.1)⟩ := by
  simp only [coverageIssuesRaw, List.mem_flatMap, List.mem_filterMap]
  constructor
  · rintro ⟨d, hdm, rr, hrr, hsome⟩
    obtain ⟨hlt, he⟩ := coverageIssueFor_eq_some.mp hsome
    exact ⟨d, hdm, rr, hrr, hlt, he⟩
  · rintro ⟨d, hdm, rr, hrr, hlt, he⟩
    exact ⟨d, hdm, rr, hrr, coverageIssueFor_eq_some.mpr ⟨hlt, he⟩⟩

/-- Counting predicate for one duty and role. -/
def issueMatches (d : Duty) (role : String) (i : CoverageIssue) : Bool :=
  i.duty_id == d.duty_id && i.role == role

/-- Count of matching issues contributed by one duty's coverage dict:
one when the entry falls short, none otherwise, provided that the roles
of the coverage dict are distinct. -/
theorem countP_filterMap_cov (crew : List CrewMember)
    (eligible : PyDict (String × String) Bool) (d : Duty) (rr : String × Int) :
    ∀ cov : List (String × Int), (cov.map Prod.fst).Nodup → rr ∈ cov →
      (cov.filterMap (coverageIssueFor crew eligible d)).countP
        (issueMatches d rr.1) =
      (if ((eligible_crew_for crew eligible d rr.1).length : Int) < rr.2
        then 1 else 0) := by
  intro cov
  induction cov with
  | nil => intro _ h; exact absurd h (List.not_mem_nil rr)
  | cons a l ih =>
      intro hnd hm
      rw [List.map_cons, List.nodup_cons] at hnd
      rw [List.filterMap_cons]
      rcases List.mem_cons.mp hm with rfl | hml
      · have hl0 : (l.filterMap (coverageIssueFor crew eligible d)).countP
            (issueMatches d rr.1) = 0 := by
          rw [List.countP_eq_zero]
          intro i hi
          obtain ⟨rr2, hrr2, hsome⟩ := List.mem_filterMap.mp hi
          obtain ⟨-, he⟩ := coverageIssueFor_eq_some.mp hsome
          subst he
          simp only [issueMatches, Bool.and_eq_true, beq_iff_eq, not_and]
          intro _ hroles
          exact hnd.1 (hroles ▸ List.mem_map.mpr ⟨rr2, hrr2, rfl⟩)
        cases hca : coverageIssueFor crew eligible d rr with
        | none =>
            rw [hl0]
            by_cases hlt : ((eligible_crew_for crew eligible d rr.1).length : Int) < rr.2
            · exact absurd hca (by
                rw [coverageIssueFor_eq_some.mpr ⟨hlt, rfl⟩]
                simp)
            · rw [if_neg hlt]
        | some i =>
            obtain ⟨hlt, he⟩ := coverageIssueFor_eq_some.mp hca
            rw [List.countP_cons, hl0, if_pos hlt]
            subst he
            simp [issueMatches]
      · have hane : a.1 ≠ rr.1 := by
          intro h
          exact hnd.1 (h ▸ List.mem_map.mpr ⟨rr, hml, rfl⟩)
        have htail := ih hnd.2 hml
        cases hca : coverageIssueFor crew eligible d a with
        | none => exact htail
        | some i =>
            obtain ⟨-, he⟩ := coverageIssueFor_eq_some.mp hca
            rw [List.countP_cons, htail]
            subst he
            simp [issueMatches, hane]

/-- Count of matching issues in the whole unsorted list: exactly one for
a shortfall entry, none otherwise, for distinct duty ids and distinct
coverage roles. -/
theorem countP_coverageIssuesRaw (crew : List CrewMember)
    (eligible : PyDict (String × String) Bool) {duties : List Duty}
    (hd : (duties.map (fun d => d.duty_id)).Nodup)
    (hcov : ∀ d2 ∈ duties, (d2.coverage.map Prod.fst).Nodup)
    {d : Duty} (hdm : d ∈ duties) {rr : String × Int} (hrr : rr ∈ d.coverage) :
    (coverageIssuesRaw crew duties eligible).countP (issueMatches d rr.1) =
      (if ((eligible_crew_for crew eligible d rr.1).length : Int) < rr.2
        then 1 else 0) := by
  induction duties with
  | nil => exact absurd hdm (List.not_mem_nil d)
  | cons d0 ds ih =>
      rw [List.map_cons, List.nodup_cons] at hd
      have hzero : ∀ d2 : Duty, d2.duty_id ≠ d.duty_id →
          (d2.coverage.filterMap (coverageIssueFor crew eligible d2)).countP
            (issueMatches d rr.1) = 0 := by
        intro d2 hne
        rw [List.countP_eq_zero]
        intro i hi
        obtain ⟨rr2, -, hsome⟩ := List.mem_filterMap.mp hi
        obtain ⟨-, he⟩ := coverageIssueFor_eq_some.mp hsome
        subst he
        simp only [issueMatches, Bool.and_eq_true, beq_iff_eq, not_and]
        intro hids
        exact absurd hids hne
      rw [show coverageIssuesRaw crew (d0 :: ds) eligible =
          d0.coverage.filterMap (coverageIssueFor crew eligible d0) ++
            coverageIssuesRaw crew ds eligible from rfl,
        List.countP_append]
      rcases List.mem_cons.mp hdm with rfl | hds
      · have htail : (coverageIssuesRaw crew ds eligible).countP
            (issueMatches d rr.1) = 0 := by
          rw [List.countP_eq_zero]
          intro i hi
          obtain ⟨d2, hd2, rr2, -, -, he⟩ := mem_coverageIssuesRaw.mp hi
          subst he
          simp only [issueMatches, Bool.and_eq_true, beq_iff_eq, not_and]
          intro hids
          exact absurd hids (fun h =>
            hd.1 (h ▸ List.mem_map.mpr ⟨d2, hd2, rfl⟩))
        rw [htail,
          countP_filterMap_cov crew eligible d rr d.coverage
            (hcov d (List.mem_cons_self d ds)) hrr]
        omega
      · have hne : d0.duty_id ≠ d.duty_id := by
          intro h
          exact hd.1 (h ▸ List.mem_map.mpr ⟨d, hds, rfl⟩)
        rw [hzero d0 hne,
          ih hd.2 (fun d2 h2 => hcov d2 (List.mem_cons_of_mem d0 h2)) hds]
        omega

/-- C8: check_coverage_feasibility returns exactly one issue per
(duty, role) coverage entry whose eligible count is below the required
count, recording both counts, and no issue otherwise; the returned list
is ordered by severity (smallest eligible_count - required first), then
day, then duty id, then role. -/
theorem check_coverage_feasibility_spec (crew : List CrewMember)
    (duties : List Duty) (eligible : PyDict (String × String) Bool)
    (hd : (duties.map (fun d => d.duty_id)).Nodup)
    (hcov : ∀ d2 ∈ duties, (d2.coverage.map Prod.fst).Nodup) :
    List.Pairwise issueBefore (check_coverage_feasibility crew duties eligible) ∧
    (∀ i, i ∈ check_coverage_feasibility crew duties eligible ↔
      ∃ d ∈ duties, ∃ rr ∈ d.coverage,
        ((eligible_crew_for crew eligible d rr.1).length : Int) < rr.2 ∧
        i = ⟨d.duty_id, d.day, rr.1, rr.2,
          (eligible_crew_for crew eligible d rr.1).length,
          pySortStr (eligible_crew_for crew eligible d rr.1)⟩) ∧
    (∀ d ∈ duties, ∀ rr ∈ d.coverage,
      (check_coverage_feasibility crew duties eligible).countP
        (issueMatches d rr.1) =
      (if ((eligible_crew_for crew eligible d rr.1).length : Int) < rr.2
        then 1 else 0)) := by
  refine ⟨?_, ?_, ?_⟩
  · exact (List.sorted_insertionSort issueLE
      (coverageIssuesRaw crew duties eligible)).imp
      (fun h => (issueLE_iff _ _).mp h)
  · intro i
    exact ((List.perm_insertionSort issueLE
      (coverageIssuesRaw crew duties eligible)).mem_iff).trans
      mem_coverageIssuesRaw
  · intro d hdm rr hrr
    unfold check_coverage_feasibility
    rw [List.Perm.countP_eq (issueMatches d rr.1)
      (List.perm_insertionSort issueLE (coverageIssuesRaw crew duties eligible))]
    exact countP_coverageIssuesRaw crew eligible hd hcov hdm hrr

/-- Witness for C8 on the one-captain shortfall instance. -/
theorem check_coverage_feasibility_spec_witness :
    List.Pairwise issueBefore
      (check_coverage_feasibility crew5 duty5 (compute_eligibility crew5 duty5)) ∧
    (∀ i, i ∈ check_coverage_feasibility crew5 duty5
        (compute_eligibility crew5 duty5) ↔
      ∃ d ∈ duty5, ∃ rr ∈ d.coverage,
        ((eligible_crew_for crew5 (compute_eligibility crew5 duty5) d
            rr.1).length : Int) < rr.2 ∧
        i = ⟨d.duty_id, d.day, rr.1, rr.2,
          (eligible_crew_for crew5 (compute_eligibility crew5 duty5) d
            rr.1).length,
          pySortStr (eligible_crew_for crew5 (compute_eligibility crew5 duty5)
            d rr.1)⟩) ∧
    (∀ d ∈ duty5, ∀ rr ∈ d.coverage,
      (check_coverage_feasibility crew5 duty5
          (compute_eligibility crew5 duty5)).countP (issueMatches d rr.1) =
      (if ((eligible_crew_for crew5 (compute_eligibility crew5 duty5) d
          rr.1).length : Int) < rr.2 then 1 else 0)) :=
  check_coverage_feasibility_spec crew5 duty5 (compute_eligibility crew5 duty5)
    (by decide) (by decide)

end CrewRostering
